import Mathlib

/-!
Verification development for the customer-success report generator and the
LLM-as-judge evaluator.  The Python sources
(`weekly_report_generator.py` and `llm_judge_cortex_search.py`) are shallowly
embedded: JSON payloads become the inductive `Json`; Python operations that can
raise (`.get` on a non-dict, `in` on a non-container, iteration over a
non-iterable, `str.join` over non-strings, subscripting) become functions into
`Except PyErr _`; the network is an oracle argument.
-/

/-- JSON values as produced by `json.load` / `response.json()`.  Objects keep
their fields in insertion order; lookup takes the last occurrence of a repeated
key, as Python's `dict` built from parsed pairs does. -/
inductive Json where
  | null
  | bool (b : Bool)
  | num (q : ℚ)
  | str (s : String)
  | arr (items : List Json)
  | obj (fields : List (String × Json))

/-- Exceptions the embedded Python fragments can raise. -/
inductive PyErr where
  | attributeError
  | typeError
  | keyError (k : String)
  | valueError
  | transport (msg : String)
deriving DecidableEq, Repr

/-- Lookup of a key in an association list; the last occurrence wins, as in a
Python `dict` built by inserting the pairs in order. -/
def lookupLast {α : Type} (fields : List (String × α)) (k : String) : Option α :=
  match fields with
  | [] => none
  | (k', v) :: rest =>
    match lookupLast rest k with
    | some r => some r
    | none => if k' = k then some v else none

/-- Field of a JSON object, `none` when the value is not an object or the key
is absent. -/
def getField (j : Json) (k : String) : Option Json :=
  match j with
  | .obj fields => lookupLast fields k
  | _ => none

/-- Python `d.get(k, default)`: raises `AttributeError` unless `d` is a dict;
returns the stored value (even `null`) when the key is present, the default
otherwise. -/
def pyDictGet (j : Json) (k : String) (dflt : Json) : Except PyErr Json :=
  match j with
  | .obj fields =>
    match lookupLast fields k with
    | some v => .ok v
    | none => .ok dflt
  | _ => .error .attributeError

/-- Python `d[k]` for a string key: `KeyError` when absent from a dict,
`TypeError` when the value is not a dict (string/list indices must be
integers). -/
def pySubscript (j : Json) (k : String) : Except PyErr Json :=
  match j with
  | .obj fields =>
    match lookupLast fields k with
    | some v => .ok v
    | none => .error (.keyError k)
  | _ => .error .typeError

/-- Substring test on character lists, Python's `needle in haystack` for
strings. -/
def containsSub (needle : List Char) : List Char → Bool
  | [] => needle.isEmpty
  | c :: rest => needle.isPrefixOf (c :: rest) || containsSub needle rest

/-- Substring test on strings. -/
def strContains (hay needle : String) : Bool :=
  containsSub needle.toList hay.toList

/-- Python `needle in container` for a string needle: key membership for a
dict, substring for a string, element membership for a list (string elements
only can compare equal), `TypeError` otherwise. -/
def pyIn (needle : String) (j : Json) : Except PyErr Bool :=
  match j with
  | .obj fields => .ok (fields.any (fun kv => kv.1 = needle))
  | .str s => .ok (strContains s needle)
  | .arr items => .ok (items.any (fun x => match x with | .str s => s = needle | _ => false))
  | _ => .error .typeError

/-- Python `for x in j`: the elements of a list, the one-character strings of a
string, the keys of a dict; `TypeError` otherwise. -/
def pyIter (j : Json) : Except PyErr (List Json) :=
  match j with
  | .arr items => .ok items
  | .str s => .ok (s.toList.map (fun c => Json.str (String.mk [c])))
  | .obj fields => .ok (fields.map (fun kv => Json.str kv.1))
  | _ => .error .typeError

/-- Python `reversed(j)`: reversed list elements, reversed characters of a
string, reversed keys of a dict (Python 3.8+); `TypeError` otherwise. -/
def pyReversed (j : Json) : Except PyErr (List Json) :=
  match j with
  | .arr items => .ok items.reverse
  | .str s => .ok (s.toList.reverse.map (fun c => Json.str (String.mk [c])))
  | .obj fields => .ok ((fields.map (fun kv => Json.str kv.1)).reverse)
  | _ => .error .typeError

mutual

/-- Python `str(j)` for the embedded JSON values.  Strings render as
themselves; containers render in Python's repr style (strings quoted inside
containers).  Only the substring test against `"cortex_search"` ever consumes
this rendering. -/
def pyStr : Json → String
  | .null => "None"
  | .bool b => if b then "True" else "False"
  | .num q => toString q
  | .str s => s
  | .arr items => "[" ++ pyStrList items ++ "]"
  | .obj fields => "\x7b" ++ pyStrFields fields ++ "\x7d"

/-- Comma-separated repr of list elements. -/
def pyStrList : List Json → String
  | [] => ""
  | [Json.str s] => "'" ++ s ++ "'"
  | [x] => pyStr x
  | Json.str s :: rest => "'" ++ s ++ "', " ++ pyStrList rest
  | x :: rest => pyStr x ++ ", " ++ pyStrList rest

/-- Comma-separated repr of object fields. -/
def pyStrFields : List (String × Json) → String
  | [] => ""
  | [(k, Json.str s)] => "'" ++ k ++ "': '" ++ s ++ "'"
  | [(k, v)] => "'" ++ k ++ "': " ++ pyStr v
  | (k, Json.str s) :: rest => "'" ++ k ++ "': '" ++ s ++ "', " ++ pyStrFields rest
  | (k, v) :: rest => "'" ++ k ++ "': " ++ pyStr v ++ ", " ++ pyStrFields rest

end

/-- Python `sep.join(items)`: `TypeError` unless every element is a string. -/
def pyJoin (sep : String) (items : List Json) : Except PyErr String :=
  match items with
  | [] => .ok ""
  | [Json.str s] => .ok s
  | Json.str s :: rest => do
    let r ← pyJoin sep rest
    pure (s ++ sep ++ r)
  | _ => .error .typeError

/-! ## String utilities modelling Python `str` methods -/

/-- Characters stripped by Python's `str.strip()` with no argument. -/
def pyIsSpace (c : Char) : Bool :=
  c = ' ' || c = '\t' || c = '\n' || c = '\r' || c = '\x0b' || c = '\x0c'

/-- Python `s.strip()`: drop leading and trailing whitespace. -/
def pyStrip (s : String) : String :=
  String.mk (((s.toList.dropWhile pyIsSpace).reverse.dropWhile pyIsSpace).reverse)

/-- Index of the first occurrence of `needle` in `hay`, `none` when absent. -/
def findSub (hay needle : List Char) : Option Nat :=
  match hay with
  | [] => if needle.isEmpty then some 0 else none
  | c :: rest =>
    if needle.isPrefixOf (c :: rest) then some 0
    else (findSub rest needle).map (· + 1)

/-- Python `s.index(sub, start)` (absolute index; `none` models the
`ValueError`). -/
def pyIndexFrom (s sub : String) (start : Nat) : Option Nat :=
  (findSub (s.toList.drop start) sub.toList).map (· + start)

/-- Python `s.index(sub)`. -/
def pyIndex (s sub : String) : Option Nat :=
  pyIndexFrom s sub 0

/-- Python `s[a:b]` for `0 ≤ a ≤ b` (clamped at the ends, as in Python). -/
def pySlice (s : String) (a b : Nat) : String :=
  String.mk ((s.toList.drop a).take (b - a))

/-! ## Model of `json.loads` (recursive-descent, fuel-bounded) -/

/-- JSON insignificant whitespace. -/
def jsonIsWs (c : Char) : Bool :=
  c = ' ' || c = '\t' || c = '\n' || c = '\r'

/-- Skip insignificant whitespace. -/
def jsonSkipWs : List Char → List Char
  | [] => []
  | c :: rest => if jsonIsWs c then jsonSkipWs rest else c :: rest

/-- Value of a hexadecimal digit. -/
def hexVal (c : Char) : Option Nat :=
  if c.isDigit then some (c.toNat - 48)
  else if 'a' ≤ c ∧ c ≤ 'f' then some (c.toNat - 87)
  else if 'A' ≤ c ∧ c ≤ 'F' then some (c.toNat - 55)
  else none

/-- Body of a JSON string literal, after the opening quote; returns the
decoded characters and the input after the closing quote. -/
def parseStrAux : List Char → Option (List Char × List Char)
  | [] => none
  | '"' :: rest => some ([], rest)
  | '\\' :: 'u' :: h1 :: h2 :: h3 :: h4 :: rest => do
    let a ← hexVal h1
    let b ← hexVal h2
    let c ← hexVal h3
    let d ← hexVal h4
    let (cs, r) ← parseStrAux rest
    pure (Char.ofNat (((a * 16 + b) * 16 + c) * 16 + d) :: cs, r)
  | '\\' :: e :: rest => do
    let c ←
      match e with
      | '"' => some '"'
      | '\\' => some '\\'
      | '/' => some '/'
      | 'b' => some '\x08'
      | 'f' => some '\x0c'
      | 'n' => some '\n'
      | 'r' => some '\r'
      | 't' => some '\t'
      | _ => none
    let (cs, r) ← parseStrAux rest
    pure (c :: cs, r)
  | c :: rest => do
    let (cs, r) ← parseStrAux rest
    pure (c :: cs, r)

/-- Longest leading digit run, with the remaining input. -/
def takeDigits : List Char → List Char × List Char
  | [] => ([], [])
  | c :: rest =>
    if c.isDigit then
      let (ds, r) := takeDigits rest
      (c :: ds, r)
    else ([], c :: rest)

/-- Numeric value of a digit run. -/
def digitsToNat (ds : List Char) : Nat :=
  ds.foldl (fun acc c => acc * 10 + (c.toNat - 48)) 0

/-- JSON number starting at the input head: optional minus, digits, optional
fraction, optional exponent; value as an exact rational. -/
def parseNum (s : List Char) : Option (ℚ × List Char) :=
  let (neg, s1) := match s with
    | '-' :: rest => (true, rest)
    | _ => (false, s)
  let (intDs, s2) := takeDigits s1
  if intDs.isEmpty then none
  else
    let (fracDs, s3) := match s2 with
      | '.' :: rest =>
        let (ds, r) := takeDigits rest
        (ds, r)
      | _ => ([], s2)
    if s2 ≠ s3 ∧ fracDs.isEmpty then none
    else
      let hasExp := match s3 with
        | 'e' :: _ => true
        | 'E' :: _ => true
        | _ => false
      let (expOk, expNeg, expDs, s4) := match s3 with
        | _ :: '-' :: rest =>
          let (ds, r) := takeDigits rest
          (! ds.isEmpty, true, ds, r)
        | _ :: '+' :: rest =>
          let (ds, r) := takeDigits rest
          (! ds.isEmpty, false, ds, r)
        | _ :: rest =>
          let (ds, r) := takeDigits rest
          (! ds.isEmpty, false, ds, r)
        | [] => (false, false, [], s3)
      if hasExp && ! expOk then none
      else
        let mantissa : ℚ :=
          (digitsToNat intDs : ℚ) + (digitsToNat fracDs : ℚ) / ((10 : ℚ) ^ fracDs.length)
        let scaled : ℚ :=
          if hasExp then
            if expNeg then mantissa / ((10 : ℚ) ^ digitsToNat expDs)
            else mantissa * ((10 : ℚ) ^ digitsToNat expDs)
          else mantissa
        some ((if neg then -scaled else scaled), if hasExp then s4 else s3)

mutual

/-- JSON value at the input head (after optional whitespace). -/
def parseValue (fuel : Nat) (s : List Char) : Option (Json × List Char) :=
  match fuel with
  | 0 => none
  | fuel + 1 =>
    match jsonSkipWs s with
    | 'n' :: 'u' :: 'l' :: 'l' :: rest => some (.null, rest)
    | 't' :: 'r' :: 'u' :: 'e' :: rest => some (.bool true, rest)
    | 'f' :: 'a' :: 'l' :: 's' :: 'e' :: rest => some (.bool false, rest)
    | '"' :: rest => do
      let (cs, r) ← parseStrAux rest
      pure (Json.str (String.mk cs), r)
    | '[' :: rest => parseArrElems fuel (jsonSkipWs rest) true
    | c :: rest =>
      if c = Char.ofNat 123 then parseObjFields fuel (jsonSkipWs rest) true
      else do
        let (q, r) ← parseNum (c :: rest)
        pure (Json.num q, r)
    | [] => none

/-- Elements of an array, after `[` (and, when not the first element, after a
`,`); `first` is true before any element has been read. -/
def parseArrElems (fuel : Nat) (s : List Char) (first : Bool) : Option (Json × List Char) :=
  match fuel with
  | 0 => none
  | fuel + 1 =>
    match s, first with
    | ']' :: rest, true => some (.arr [], rest)
    | _, _ => do
      let (v, r) ← parseValue fuel s
      match jsonSkipWs r with
      | ',' :: r2 => do
        let (rest, r3) ← parseArrElems fuel (jsonSkipWs r2) false
        match rest with
        | .arr items => pure (Json.arr (v :: items), r3)
        | _ => none
      | ']' :: r2 => pure (Json.arr [v], r2)
      | _ => none

/-- Fields of an object, after `{` (and, when not the first field, after a
`,`). -/
def parseObjFields (fuel : Nat) (s : List Char) (first : Bool) : Option (Json × List Char) :=
  match fuel with
  | 0 => none
  | fuel + 1 =>
    match s, first with
    | c :: rest, true =>
      if c = Char.ofNat 125 then some (.obj [], rest)
      else parseObjPair fuel (c :: rest)
    | s, _ => parseObjPair fuel s

/-- One `"key": value` pair followed by the rest of the object. -/
def parseObjPair (fuel : Nat) (s : List Char) : Option (Json × List Char) :=
  match fuel with
  | 0 => none
  | fuel + 1 =>
    match s with
    | '"' :: rest => do
      let (kcs, r) ← parseStrAux rest
      match jsonSkipWs r with
      | ':' :: r2 => do
        let (v, r3) ← parseValue fuel r2
        match jsonSkipWs r3 with
        | ',' :: r4 => do
          let (restObj, r5) ← parseObjFields fuel (jsonSkipWs r4) false
          match restObj with
          | .obj fields => pure (Json.obj ((String.mk kcs, v) :: fields), r5)
          | _ => none
        | c :: r4 =>
          if c = Char.ofNat 125 then pure (Json.obj [(String.mk kcs, v)], r4)
          else none
        | [] => none
      | _ => none
    | _ => none

end

/-- Model of Python `json.loads`: parse one value and require only whitespace
after it; `none` models the raised `JSONDecodeError`. -/
def pyJsonLoads (s : String) : Option Json :=
  match parseValue (s.toList.length + 2) s.toList with
  | some (j, rest) => if (jsonSkipWs rest).isEmpty then some j else none
  | none => none

/-! ## Embedding of `llm_judge_cortex_search.py` -/

/-- Test whether a JSON value is the given string (Python `==` against a
string literal: values of other types compare unequal, never raise). -/
def jsonIsStr (j : Json) (s : String) : Bool :=
  match j with
  | .str t => t = s
  | _ => false

/-- Inner loop body of `extract_case_studies_from_response` over one element
`c` of a tool result's `content` list:
`if "json" in c and "search_results" in c["json"]: for result in ...:
case_studies.append(result.get("text", ""))`. -/
def collectFromC (c : Json) : Except PyErr (List Json) := do
  let hasJson ← pyIn "json" c
  if hasJson then
    let cj ← pySubscript c "json"
    let hasSR ← pyIn "search_results" cj
    if hasSR then
      let sr ← pySubscript cj "search_results"
      let results ← pyIter sr
      results.mapM (fun result => pyDictGet result "text" (Json.str ""))
    else pure []
  else pure []

/-- Outer loop body of `extract_case_studies_from_response` over one content
item: the `type == "tool_result"` test, the `"cortex_search" in
str(tool_result.get("name", ""))` filter, and the descent through the tool
result's `content` list. -/
def collectFromItem (item : Json) : Except PyErr (List Json) := do
  let ty ← pyDictGet item "type" Json.null
  if jsonIsStr ty "tool_result" then
    let tool_result ← pyDictGet item "tool_result" (Json.obj [])
    let name ← pyDictGet tool_result "name" (Json.str "")
    if strContains (pyStr name) "cortex_search" then
      let content ← pyDictGet tool_result "content" (Json.arr [])
      let cs ← pyIter content
      let collected ← cs.mapM collectFromC
      pure collected.flatten
    else pure []
  else pure []

/-- Accumulation phase of `extract_case_studies_from_response`: the value of
`case_studies` after the loops. -/
def collectPhase (response_data : Json) : Except PyErr (List Json) := do
  let content ← pyDictGet response_data "content" (Json.arr [])
  let items ← pyIter content
  let collected ← items.mapM collectFromItem
  pure collected.flatten

/-- Embedding of `extract_case_studies_from_response`: join the collected
texts with `"\n\n---\n\n"` when any were found, else the sentinel. -/
def extract_case_studies_from_response (response_data : Json) : Except PyErr String := do
  let case_studies ← collectPhase response_data
  if case_studies.isEmpty then pure "No case studies found in tool results"
  else pyJoin "\n\n---\n\n" case_studies

/-- Scan of `extract_agent_response`'s loop over the reversed content items:
return `item.get("text", "")` of the first item whose `type` is `"text"`. -/
def scanForText : List Json → Except PyErr Json
  | [] => .ok (Json.str "No agent response found")
  | item :: rest => do
    let ty ← pyDictGet item "type" Json.null
    if jsonIsStr ty "text" then pyDictGet item "text" (Json.str "")
    else scanForText rest

/-- Embedding of `extract_agent_response`. -/
def extract_agent_response (response_data : Json) : Except PyErr Json := do
  let content ← pyDictGet response_data "content" (Json.arr [])
  let items ← pyReversed content
  scanForText items

/-- Result of the judgment-recovery block in `call_llm_judge`: either the
parsed JSON, or the error dict
`{"error": "Failed to parse JSON", "raw_response": <text>}` built in the
`except` branch (`raw_response` is whatever `judgment_text` holds when the
exception fires: the sliced interior when slicing succeeded, the original
text otherwise). -/
inductive JudgeResult where
  | parsed (j : Json)
  | failed (raw_response : String)

/-- Embedding of the fence-handling and parse block of `call_llm_judge`
(lines 146–161): one extraction strategy is chosen by substring presence
(`"```json"`, else `"```"`, else none), its interior is sliced out, and
`json.loads` runs once on the stripped text; `ValueError`/`JSONDecodeError`
(a missing closing fence or a failed parse) is caught and becomes the error
dict. -/
def recoverJudgment (t : String) : JudgeResult :=
  if strContains t "```json" then
    match pyIndex t "```json" with
    | none => .failed t
    | some i =>
      let json_start := i + 7
      match pyIndexFrom t "```" json_start with
      | none => .failed t
      | some json_end =>
        let t2 := pySlice t json_start json_end
        match pyJsonLoads (pyStrip t2) with
        | some j => .parsed j
        | none => .failed t2
  else if strContains t "```" then
    match pyIndex t "```" with
    | none => .failed t
    | some i =>
      let json_start := i + 3
      match pyIndexFrom t "```" json_start with
      | none => .failed t
      | some json_end =>
        let t2 := pySlice t json_start json_end
        match pyJsonLoads (pyStrip t2) with
        | some j => .parsed j
        | none => .failed t2
  else
    match pyJsonLoads (pyStrip t) with
    | some j => .parsed j
    | none => .failed t

/-- Modelled from the spec (§4.5 `recover_structured_judgment`), for
comparison with `recoverJudgment`: strategy (a) parses the interior of a
fenced block tagged `json`; on failure strategy (b) parses the interior of a
generic fenced block; on failure strategy (c) parses the raw text; the first
attempt that parses wins, and only if all fail is the `UnparsedJudgment`
returned. -/
def specAttemptTagged (t : String) : Option Json :=
  match pyIndex t "```json" with
  | none => none
  | some i =>
    match pyIndexFrom t "```" (i + 7) with
    | none => none
    | some e => pyJsonLoads (pyStrip (pySlice t (i + 7) e))

/-- Modelled from the spec: strategy (b), the interior of any generic fenced
block. -/
def specAttemptGeneric (t : String) : Option Json :=
  match pyIndex t "```" with
  | none => none
  | some i =>
    match pyIndexFrom t "```" (i + 3) with
    | none => none
    | some e => pyJsonLoads (pyStrip (pySlice t (i + 3) e))

/-- Modelled from the spec: the three-strategy fallback cascade. -/
def specRecoverJudgment (t : String) : JudgeResult :=
  match specAttemptTagged t with
  | some j => .parsed j
  | none =>
    match specAttemptGeneric t with
    | some j => .parsed j
    | none =>
      match pyJsonLoads (pyStrip t) with
      | some j => .parsed j
      | none => .failed t

/-- Python `s.split('---')` on character lists: non-overlapping,
left-to-right. -/
def pySplit3 : List Char → List (List Char)
  | [] => [[]]
  | '-' :: '-' :: '-' :: tail => [] :: pySplit3 tail
  | c :: rest => (pySplit3 rest).modifyHead (fun seg => c :: seg)

/-- Non-overlapping occurrence count of `"---"`, Python `s.count('---')`. -/
def count3 : List Char → Nat
  | [] => 0
  | '-' :: '-' :: '-' :: tail => count3 tail + 1
  | _ :: rest => count3 rest

/-- Embedding of the judge `main`'s metadata entry
`"num_case_studies": len(case_studies.split('---'))`. -/
def num_case_studies (case_studies : String) : Nat :=
  (pySplit3 case_studies.toList).length

/-- Embedding of the argument check at the top of the judge `main`:
`if len(sys.argv) < 4: ...; sys.exit(1)`.  `argv` includes the program name;
the error value is the exit status. -/
def judge_main_argcheck (argv : List String) : Except Nat Unit :=
  if argv.length < 4 then .error 1 else .ok ()

/-! ## Embedding of `weekly_report_generator.py` -/

/-- Loop body of `extract_text_from_response` over the message's content
items: collect `content_item.get('text', '')` of every item whose `type` is
`'text'`, in order. -/
def collectTextParts : List Json → Except PyErr (List Json)
  | [] => .ok []
  | item :: rest => do
    let ty ← pyDictGet item "type" Json.null
    if jsonIsStr ty "text" then
      let t ← pyDictGet item "text" (Json.str "")
      let r ← collectTextParts rest
      pure (t :: r)
    else collectTextParts rest

/-- Embedding of `WeeklyReportGenerator.extract_text_from_response`: when
`'message' in response and 'content' in response['message']`, join the text
of every `text` content item with `"\n\n"`; otherwise join the empty list
(the empty string). -/
def extract_text_from_response (response : Json) : Except PyErr String := do
  let hasMsg ← pyIn "message" response
  if hasMsg then
    let msg ← pySubscript response "message"
    let hasContent ← pyIn "content" msg
    if hasContent then
      let content ← pySubscript msg "content"
      let items ← pyIter content
      let text_parts ← collectTextParts items
      pyJoin "\n\n" text_parts
    else pyJoin "\n\n" []
  else pyJoin "\n\n" []

/-- The network as seen by one report generation: `create_thread`'s reply and
the JSON body of the reply to the i-th `call_agent` request (the real request
also carries the thread id, continuation id and prompt; what was sent is
recorded in the `TurnRecord` trace). -/
structure AgentEnv where
  create_thread : Except PyErr String
  call_agent : Nat → Except PyErr Json

/-- Ghost trace of one `call_agent` exchange: the `parent_message_id` the
request carried and the response payload. -/
structure TurnRecord where
  sent_parent : Json
  response : Json

/-- The 12-space indentation inside the section prompt f-strings. -/
def ind12 : String := "            "

/-- Prompt of the `performance` section (f-string at lines 118–129). -/
def performance_prompt (customer_id week_start week_end : String) : String :=
  "\n" ++
  ind12 ++ "Analyze performance vs industry benchmarks for customer " ++ customer_id ++ " \n" ++
  ind12 ++ "for the period " ++ week_start ++ " to " ++ week_end ++ ".\n" ++
  ind12 ++ "\n" ++
  ind12 ++ "Include:\n" ++
  ind12 ++ "1. Key conversion metrics (total revenue, conversion count, average value)\n" ++
  ind12 ++ "2. Engagement metrics (open rates, click-through rates, engagement scores)\n" ++
  ind12 ++ "3. Comparison to industry benchmarks where available\n" ++
  ind12 ++ "4. Year-over-year comparison if sufficient historical data exists\n" ++
  ind12 ++ "\n" ++
  ind12 ++ "Keep it concise and highlight the most important metrics.\n" ++
  ind12

/-- Prompt of the `business_value` section (f-string at lines 131–141). -/
def business_value_prompt (customer_id : String) : String :=
  "\n" ++
  ind12 ++ "Provide a business value analysis for customer " ++ customer_id ++ ".\n" ++
  ind12 ++ "\n" ++
  ind12 ++ "Focus on:\n" ++
  ind12 ++ "1. Revenue trends and growth indicators\n" ++
  ind12 ++ "2. Customer engagement health\n" ++
  ind12 ++ "3. Channel effectiveness (which channels are driving the most value)\n" ++
  ind12 ++ "4. Attribution insights (which touchpoints contribute most to conversions)\n" ++
  ind12 ++ "\n" ++
  ind12 ++ "Translate metrics into business impact statements.\n" ++
  ind12

/-- Prompt of the `recommendations` section (f-string at lines 143–153). -/
def recommendations_prompt (customer_id : String) : String :=
  "\n" ++
  ind12 ++ "Based on the data for customer " ++ customer_id ++ " and relevant case studies from \n" ++
  ind12 ++ "the Media & Entertainment industry, provide 3-5 actionable recommendations.\n" ++
  ind12 ++ "\n" ++
  ind12 ++ "For each recommendation:\n" ++
  ind12 ++ "1. State the recommendation clearly\n" ++
  ind12 ++ "2. Reference supporting data or case study examples\n" ++
  ind12 ++ "3. Explain the expected impact\n" ++
  ind12 ++ "\n" ++
  ind12 ++ "Focus on: channel optimization, engagement strategies, and churn prevention.\n" ++
  ind12

/-- The `sections` dict of `generate_report_for_customer`, in insertion
order. -/
def report_section_specs (customer_id week_start week_end : String) : List (String × String) :=
  [("performance", performance_prompt customer_id week_start week_end),
   ("business_value", business_value_prompt customer_id),
   ("recommendations", recommendations_prompt customer_id)]

/-- The section loop of `generate_report_for_customer`: for each section call
the agent with the current `parent_message_id`, extract the text, store it,
and set `parent_message_id = response.get('message_id', parent_message_id)`.
Returns the `report_sections` pairs in insertion order together with the
ghost trace of the calls; an exception anywhere propagates (it is caught at
the batch boundary). -/
def genSectionsLoop (env : AgentEnv) :
    List (String × String) → Json → Nat → Except PyErr (List (String × String) × List TurnRecord)
  | [], _, _ => .ok ([], [])
  | (section_name, _prompt) :: rest, parent, i => do
    let response ← env.call_agent i
    let section_text ← extract_text_from_response response
    let newParent ← pyDictGet response "message_id" parent
    let (secs, recs) ← genSectionsLoop env rest newParent (i + 1)
    pure ((section_name, section_text) :: secs, ⟨parent, response⟩ :: recs)

/-- Embedding of `generate_report_for_customer`: create a thread, then run
the section loop over the fixed section list starting from the sentinel
continuation id `"0"`. -/
def generate_report_for_customer (env : AgentEnv)
    (customer_id week_start week_end : String) :
    Except PyErr (List (String × String) × List TurnRecord) := do
  let _thread_id ← env.create_thread
  genSectionsLoop env (report_section_specs customer_id week_start week_end) (Json.str "0") 0

/-- Python `sections[k]` on the report-sections dict. -/
def sectionsGet (sections : List (String × String)) (k : String) : Except PyErr String :=
  match lookupLast sections k with
  | some v => .ok v
  | none => .error (.keyError k)

/-- A line of 80 `=` characters, the `====…` rule of the report template. -/
def eqLine80 : String := String.mk (List.replicate 80 '=')

/-- Embedding of `format_full_report` (f-string at lines 190–221).  The
`strftime`-formatted dates and the `datetime.now()` stamp enter as opaque
strings; the three `sections[…]` subscripts can raise `KeyError`, in source
order. -/
def format_full_report (customer_id csm_name week_start_fmt week_end_fmt now_fmt : String)
    (sections : List (String × String)) : Except PyErr String := do
  let perf ← sectionsGet sections "performance"
  let bv ← sectionsGet sections "business_value"
  let recs ← sectionsGet sections "recommendations"
  pure ("\n" ++ eqLine80 ++ "\nWEEKLY EXECUTIVE REVIEW REPORT\n" ++ eqLine80 ++
    "\n\nCustomer ID: " ++ customer_id ++ "\nCSM: " ++ csm_name ++
    "\nReport Period: " ++ week_start_fmt ++ " - " ++ week_end_fmt ++
    "\nGenerated: " ++ now_fmt ++ "\n\n" ++ eqLine80 ++
    "\n1. PERFORMANCE VS BENCHMARKS\n" ++ eqLine80 ++ "\n\n" ++ perf ++
    "\n\n" ++ eqLine80 ++ "\n2. BUSINESS VALUE ANALYSIS\n" ++ eqLine80 ++ "\n\n" ++ bv ++
    "\n\n" ++ eqLine80 ++ "\n3. RECOMMENDATIONS & BEST PRACTICES\n" ++ eqLine80 ++ "\n\n" ++ recs ++
    "\n\n" ++ eqLine80 ++ "\nEND OF REPORT\n" ++ eqLine80 ++ "\n")

/-- Embedding of `save_report_to_database`: the SQL insert is external I/O
that succeeds once its arguments are built; the three `sections[…]`
subscripts in the argument tuple can raise `KeyError`. -/
def save_report_to_database (sections : List (String × String)) (_full_report : String) :
    Except PyErr Unit := do
  let _ ← sectionsGet sections "performance"
  let _ ← sectionsGet sections "business_value"
  let _ ← sectionsGet sections "recommendations"
  pure ()

/-- The fields of one `csm_assignments` row used by the batch loop. -/
structure Csm where
  csm_id : String
  csm_name : String
  customer_ids : List String

/-- Opaque run-time context of one batch run: the `strftime`-formatted period
bounds used in prompts (ISO) and in the report header (pretty), and the
`datetime.now()` stamp. -/
structure RunCtx where
  now_fmt : String
  week_start_fmt : String
  week_end_fmt : String
  week_start_iso : String
  week_end_iso : String

/-- One recorded per-subject failure: the batch loop's
`"✗ Error generating report for {customer_id}: {e}"` line, keyed by the
failing customer and its CSM. -/
structure SubjectFailure where
  subject_id : String
  owner_id : String
  error : PyErr

/-- The body of the per-customer `try` block: generate the sections, format
the full report, save it.  Any exception propagates to the per-customer
boundary. -/
def run_customer_report (envFor : String → AgentEnv) (ctx : RunCtx) (csm : Csm)
    (customer_id : String) : Except PyErr Unit := do
  let (sections, _trace) ←
    generate_report_for_customer (envFor customer_id) customer_id
      ctx.week_start_iso ctx.week_end_iso
  let full_report ←
    format_full_report customer_id csm.csm_name ctx.week_start_fmt ctx.week_end_fmt
      ctx.now_fmt sections
  save_report_to_database sections full_report

/-- Inner customer loop of `generate_weekly_reports`: skip falsy or
`'undefined'` ids, run the guarded body, count successes, record failures,
and always continue. -/
def processCustomers (runOne : String → Except PyErr Unit) (owner_id : String) :
    List String → Nat × List SubjectFailure
  | [] => (0, [])
  | customer_id :: rest =>
    if customer_id ≠ "" ∧ customer_id ≠ "undefined" then
      match runOne customer_id with
      | .ok _ =>
        let (n, fs) := processCustomers runOne owner_id rest
        (n + 1, fs)
      | .error e =>
        let (n, fs) := processCustomers runOne owner_id rest
        (n, ⟨customer_id, owner_id, e⟩ :: fs)
    else processCustomers runOne owner_id rest

/-- Embedding of `generate_weekly_reports`: iterate over every CSM and each
of its assigned customers; return the final `report_count` and the failure
records in encounter order. -/
def generate_weekly_reports (envFor : String → AgentEnv) (ctx : RunCtx) :
    List Csm → Nat × List SubjectFailure
  | [] => (0, [])
  | csm :: rest =>
    let (n1, f1) := processCustomers (run_customer_report envFor ctx csm) csm.csm_id csm.customer_ids
    let (n2, f2) := generate_weekly_reports envFor ctx rest
    (n1 + n2, f1 ++ f2)

/-- The arguments of the report CLI after `argparse` (absent optional
arguments are `none`). -/
structure ReportArgs where
  mode : String
  csm_id : Option String
  customer_id : Option String

/-- Python truthiness of an optional string argument (`not args.csm_id`). -/
def pyTruthyOpt : Option String → Bool
  | none => false
  | some s => s ≠ ""

/-- Embedding of the single-mode argument check in the report `main`:
`parser.error(...)` exits the process with status 2 when `--mode single` is
given without a truthy `--csm-id` or `--customer-id`. -/
def report_main_argcheck (args : ReportArgs) : Except Nat Unit :=
  if args.mode = "single" then
    if ! pyTruthyOpt args.csm_id || ! pyTruthyOpt args.customer_id then .error 2
    else .ok ()
  else .ok ()

/-! ## Helper lemmas and claim theorems -/

/-- Sentinel returned by `extract_case_studies_from_response` when nothing
was collected. -/
def no_case_studies_sentinel : String := "No case studies found in tool results"

theorem pySplit3_ne_nil (s : List Char) : pySplit3 s ≠ [] := by
  induction s using pySplit3.induct with
  | case1 => simp [pySplit3]
  | case2 tail ih => simp [pySplit3]
  | case3 c rest h ih =>
    rw [pySplit3]
    · cases h' : pySplit3 rest with
      | nil => exact absurd h' ih
      | cons a as => simp [List.modifyHead]
    · exact h

theorem length_pySplit3 (s : List Char) : (pySplit3 s).length = count3 s + 1 := by
  induction s using pySplit3.induct with
  | case1 => simp [pySplit3, count3]
  | case2 tail ih => simp [pySplit3, count3, ih]
  | case3 c rest h ih =>
    rw [pySplit3]
    · rw [List.length_modifyHead, ih, count3]
      exact h
    · exact h

/-- C10: the `num_case_studies` metadata value persisted by the judge entry
point equals one plus the number of (non-overlapping) occurrences of `"---"`
in the extracted evidence string; on the no-case-studies sentinel it equals 1,
and it is never 0 — so when zero evidence snippets were collected the
reported count is 1, not 0. -/
theorem c10_num_case_studies_off_by_one (s : String) :
    num_case_studies s = count3 s.toList + 1 ∧
    num_case_studies no_case_studies_sentinel = 1 ∧
    num_case_studies s ≠ 0 := by
  refine ⟨length_pySplit3 s.toList, by decide, ?_⟩
  rw [num_case_studies, length_pySplit3 s.toList]
  omega

/-- C8: whenever the collection loop of `extract_case_studies_from_response`
finds no qualifying evidence, the function returns the fixed sentinel, which
is not the empty string. -/
theorem c8_no_evidence_sentinel (j : Json) (h : collectPhase j = .ok []) :
    extract_case_studies_from_response j = .ok no_case_studies_sentinel ∧
    no_case_studies_sentinel ≠ "" := by
  constructor
  · rw [extract_case_studies_from_response, h]
    rfl
  · decide

/-- Witness for `c8_no_evidence_sentinel` at a payload with an empty content
list. -/
theorem c8_no_evidence_sentinel_witness :
    collectPhase (Json.obj [("content", Json.arr [])]) = .ok [] ∧
    (extract_case_studies_from_response (Json.obj [("content", Json.arr [])]) =
        .ok no_case_studies_sentinel ∧
      no_case_studies_sentinel ≠ "") :=
  ⟨rfl, c8_no_evidence_sentinel (Json.obj [("content", Json.arr [])]) rfl⟩

/-- C9: the judge CLI exits with status 1 when fewer than three positional
arguments are given (argv counts the program name), and the report CLI exits
with status 2 (via `parser.error`) when `--mode single` is selected while
`--csm-id` or `--customer-id` is absent; both statuses are non-zero. -/
theorem c9_cli_exits_nonzero (argv : List String) (args : ReportArgs)
    (h1 : argv.length < 4)
    (h2 : args.mode = "single")
    (h3 : args.csm_id = none ∨ args.customer_id = none) :
    judge_main_argcheck argv = .error 1 ∧
    report_main_argcheck args = .error 2 ∧
    (1 : Nat) ≠ 0 ∧ (2 : Nat) ≠ 0 := by
  refine ⟨?_, ?_, by decide, by decide⟩
  · rw [judge_main_argcheck]
    simp [h1]
  · rw [report_main_argcheck]
    rcases h3 with h | h <;> simp [h2, h, pyTruthyOpt]

/-- Witness for `c9_cli_exits_nonzero`: one missing positional argument for
the judge CLI and a single-mode report invocation with no ids. -/
theorem c9_cli_exits_nonzero_witness :
    (["llm_judge_cortex_search.py", "resp.json", "question"] : List String).length < 4 ∧
    (ReportArgs.mk "single" none none).mode = "single" ∧
    ((ReportArgs.mk "single" none none).csm_id = none ∨
      (ReportArgs.mk "single" none none).customer_id = none) ∧
    (judge_main_argcheck ["llm_judge_cortex_search.py", "resp.json", "question"] = .error 1 ∧
      report_main_argcheck (ReportArgs.mk "single" none none) = .error 2 ∧
      (1 : Nat) ≠ 0 ∧ (2 : Nat) ≠ 0) :=
  ⟨by decide, rfl, Or.inl rfl,
    c9_cli_exits_nonzero ["llm_judge_cortex_search.py", "resp.json", "question"]
      (ReportArgs.mk "single" none none) (by decide) rfl (Or.inl rfl)⟩

/-! ## Payload builders and join lemmas (C5, C6) -/

/-- Independent rendering of the claimed evidence concatenation: the snippets
in order, joined by the separator. -/
def joinSep (sep : String) : List String → String
  | [] => ""
  | [x] => x
  | x :: rest => x ++ sep ++ joinSep sep rest

theorem joinSep_cons_cons (sep x y : String) (ys : List String) :
    joinSep sep (x :: y :: ys) = x ++ sep ++ joinSep sep (y :: ys) := by
  rw [joinSep]
  simp

theorem pyJoin_map_str (sep : String) (l : List String) :
    pyJoin sep (l.map Json.str) = .ok (joinSep sep l) := by
  induction l with
  | nil => rfl
  | cons x rest ih =>
    cases rest with
    | nil => rfl
    | cons y ys =>
      simp only [List.map_cons] at ih ⊢
      rw [pyJoin, ih, joinSep_cons_cons]
      · rfl
      · simp

/-- A `text` content block as emitted by the agent. -/
def mkTextBlock (t : String) : Json :=
  Json.obj [("type", Json.str "text"), ("text", Json.str t)]

/-- An agent-API response whose `message.content` is a list of text blocks. -/
def mkMsgResponse (texts : List String) : Json :=
  Json.obj [("message", Json.obj [("content", Json.arr (texts.map mkTextBlock))])]

/-- A judge-input response whose top-level `content` is a list of text
blocks. -/
def mkContentResponse (texts : List String) : Json :=
  Json.obj [("content", Json.arr (texts.map mkTextBlock))]

theorem collectTextParts_map (texts : List String) :
    collectTextParts (texts.map mkTextBlock) = .ok (texts.map Json.str) := by
  induction texts with
  | nil => rfl
  | cons t ts ih =>
    simp only [List.map_cons]
    rw [collectTextParts]
    simp [mkTextBlock, pyDictGet, lookupLast, jsonIsStr, ih]
    rfl

theorem scanForText_map (texts : List String) :
    scanForText (texts.map mkTextBlock) =
      .ok (match texts.head? with
           | some t => Json.str t
           | none => Json.str "No agent response found") := by
  cases texts with
  | nil => rfl
  | cons t ts =>
    simp only [List.map_cons, List.head?_cons]
    rw [scanForText]
    rfl

/-- A response carrying two text blocks, `"A"` then `"B"`; the report
generator's extraction returns them joined, not the last one. -/
def c5_two_text_response : Json :=
  mkMsgResponse ["A", "B"]

/-- C5 counterexample: on a response whose message content holds two text
blocks, `extract_text_from_response` — the extraction used when storing a
report section — returns the forward-order join `"A\n\nB"`, not the body of
the last text block `"B"` as the claim states. -/
theorem c5_counterexample_forward_join :
    extract_text_from_response c5_two_text_response = .ok "A\n\nB" ∧
    (Except.ok "A\n\nB" : Except PyErr String) ≠ .ok "B" := by
  refine ⟨rfl, ?_⟩
  intro h
  have : "A\n\nB" = "B" := by injection h
  exact absurd this (by decide)

/-- C5 amended: the extraction used when storing a report section
(`extract_text_from_response`) joins the bodies of all text blocks in forward
order with `"\n\n"` (the empty string, not a sentinel, when none exist); the
reverse scan that returns the last text block's body, with the sentinel
`"No agent response found"` when none exists, is the judge's separate
`extract_agent_response`. -/
theorem c5_amended_extraction_split (texts : List String) :
    extract_text_from_response (mkMsgResponse texts) = .ok (joinSep "\n\n" texts) ∧
    extract_agent_response (mkContentResponse texts) =
      .ok (match texts.getLast? with
           | some t => Json.str t
           | none => Json.str "No agent response found") := by
  constructor
  · have h1 : extract_text_from_response (mkMsgResponse texts) =
        (collectTextParts (texts.map mkTextBlock)).bind (fun tp => pyJoin "\n\n" tp) := rfl
    rw [h1, collectTextParts_map]
    exact pyJoin_map_str "\n\n" texts
  · have h2 : extract_agent_response (mkContentResponse texts) =
        scanForText ((texts.map mkTextBlock).reverse) := rfl
    rw [h2, ← List.map_reverse, scanForText_map, List.head?_reverse]

/-! ## Evidence payload builders (C6) -/

/-- One search result, `{"text": t}`. -/
def mkSearchResult (t : String) : Json :=
  Json.obj [("text", Json.str t)]

/-- The element of a tool result's `content` list holding the
`search_results`. -/
def mkSearchContent (texts : List String) : Json :=
  Json.obj [("json", Json.obj [("search_results", Json.arr (texts.map mkSearchResult))])]

/-- A qualifying `tool_result` content block (its tool name contains the
`cortex_search` marker) holding one `search_results` list. -/
def mkToolResultBlock (texts : List String) : Json :=
  Json.obj [("type", Json.str "tool_result"),
            ("tool_result", Json.obj
              [("name", Json.str "my_cortex_search_service"),
               ("content", Json.arr [mkSearchContent texts])])]

/-- A response whose `content` is a list of qualifying tool-result blocks. -/
def mkEvidenceResponse (blockTexts : List (List String)) : Json :=
  Json.obj [("content", Json.arr (blockTexts.map mkToolResultBlock))]

theorem mapM_getText (texts : List String) :
    (texts.map mkSearchResult).mapM (fun result => pyDictGet result "text" (Json.str "")) =
      .ok (texts.map Json.str) := by
  induction texts with
  | nil => rfl
  | cons t ts ih =>
    simp only [List.map_cons, List.mapM_cons, ih]
    rfl

theorem collectFromC_mkSearchContent (texts : List String) :
    collectFromC (mkSearchContent texts) = .ok (texts.map Json.str) := by
  have h : collectFromC (mkSearchContent texts) =
      (texts.map mkSearchResult).mapM (fun result => pyDictGet result "text" (Json.str "")) := rfl
  rw [h, mapM_getText]

theorem collectFromItem_mkToolResultBlock (texts : List String) :
    collectFromItem (mkToolResultBlock texts) = .ok (texts.map Json.str) := by
  have h : collectFromItem (mkToolResultBlock texts) =
      (([mkSearchContent texts]).mapM collectFromC).bind
        (fun collected => pure collected.flatten) := rfl
  rw [h]
  simp only [List.mapM_cons, List.mapM_nil, collectFromC_mkSearchContent]
  simp [Except.bind]
  rfl

theorem mapM_collectFromItem (blockTexts : List (List String)) :
    (blockTexts.map mkToolResultBlock).mapM collectFromItem =
      .ok (blockTexts.map (fun ts => ts.map Json.str)) := by
  induction blockTexts with
  | nil => rfl
  | cons ts rest ih =>
    simp only [List.map_cons, List.mapM_cons, collectFromItem_mkToolResultBlock, ih]
    rfl

theorem collectPhase_mkEvidenceResponse (blockTexts : List (List String)) :
    collectPhase (mkEvidenceResponse blockTexts) = .ok (blockTexts.flatten.map Json.str) := by
  have h : collectPhase (mkEvidenceResponse blockTexts) =
      ((blockTexts.map mkToolResultBlock).mapM collectFromItem).bind
        (fun collected => pure collected.flatten) := rfl
  rw [h, mapM_collectFromItem]
  show Except.ok ((blockTexts.map (fun ts => ts.map Json.str)).flatten) = _
  rw [← List.map_flatten]

/-- C6: over a response holding any number of qualifying tool-result blocks,
each with any number of search results, `extract_case_studies_from_response`
returns the result texts in block order then within-block order, joined by
exactly `"\n\n---\n\n"`. -/
theorem c6_evidence_ordering (blockTexts : List (List String))
    (h : blockTexts.flatten ≠ []) :
    extract_case_studies_from_response (mkEvidenceResponse blockTexts) =
      .ok (joinSep "\n\n---\n\n" blockTexts.flatten) := by
  rw [extract_case_studies_from_response, collectPhase_mkEvidenceResponse]
  have hne : (blockTexts.flatten.map Json.str).isEmpty = false := by
    cases hfl : blockTexts.flatten with
    | nil => exact absurd hfl h
    | cons a as => simp
  show (if (blockTexts.flatten.map Json.str).isEmpty then _ else _ : Except PyErr String) = _
  rw [hne]
  simp only [Bool.false_eq_true, if_false]
  exact pyJoin_map_str "\n\n---\n\n" blockTexts.flatten

/-- Witness for `c6_evidence_ordering`: two blocks with results
`["A", "B"]` and `["C"]` yield `"A\n\n---\n\nB\n\n---\n\nC"`. -/
theorem c6_evidence_ordering_witness :
    ([["A", "B"], ["C"]] : List (List String)).flatten ≠ [] ∧
    extract_case_studies_from_response (mkEvidenceResponse [["A", "B"], ["C"]]) =
      .ok "A\n\n---\n\nB\n\n---\n\nC" :=
  ⟨by decide, by
    have h := c6_evidence_ordering [["A", "B"], ["C"]] (by decide)
    simpa using h⟩

/-! ## Shape predicates and robustness lemmas (C2) -/

@[simp] theorem except_bind_ok {ε α β : Type} (a : α) (f : α → Except ε β) :
    (Except.ok a : Except ε α) >>= f = f a := rfl

@[simp] theorem except_bind_err {ε α β : Type} (e : ε) (f : α → Except ε β) :
    (Except.error e : Except ε α) >>= f = Except.error e := rfl

@[simp] theorem except_pure_eq_ok {ε α : Type} (a : α) :
    (pure a : Except ε α) = Except.ok a := rfl

/-- Whether a JSON value is an object. -/
def isObj : Json → Bool
  | .obj _ => true
  | _ => false

/-- Whether a JSON value is a string. -/
def isStrJ : Json → Bool
  | .str _ => true
  | _ => false

/-- Well-typedness of one search result: its `text` field, when present, is a
string. -/
def resultOk (r : Json) : Bool :=
  match r with
  | .obj fields =>
    match lookupLast fields "text" with
    | none => true
    | some (.str _) => true
    | some _ => false
  | _ => false

/-- Well-typedness of one element of a tool result's `content` list: an
object whose `json` field, when present, is an object whose
`search_results`, when present, is a list of well-typed results. -/
def cOk (c : Json) : Bool :=
  match c with
  | .obj fields =>
    match lookupLast fields "json" with
    | none => true
    | some (.obj jf) =>
      match lookupLast jf "search_results" with
      | none => true
      | some (.arr rs) => rs.all resultOk
      | some _ => false
    | some _ => false
  | _ => false

/-- Well-typedness of one content block for the evidence extractor: an
object; when its `type` is `"tool_result"`, its `tool_result` field (when
present) is an object whose `content` field (when present) is a list of
well-typed elements. -/
def itemOk (item : Json) : Bool :=
  match item with
  | .obj fields =>
    match lookupLast fields "type" with
    | some (.str "tool_result") =>
      match lookupLast fields "tool_result" with
      | none => true
      | some (.obj tf) =>
        match lookupLast tf "content" with
        | none => true
        | some (.arr cs) => cs.all cOk
        | some _ => false
      | some _ => false
    | _ => true
  | _ => false

/-- Well-typedness of a judge input payload for the evidence extractor: an
object whose `content`, when present, is a list of well-typed blocks. -/
def payloadOk (j : Json) : Bool :=
  match j with
  | .obj fields =>
    match lookupLast fields "content" with
    | none => true
    | some (.arr items) => items.all itemOk
    | some _ => false
  | _ => false

/-- Well-typedness of a judge input payload for the final-text extractor: an
object whose `content`, when present, is a list of objects. -/
def agentRespOk (j : Json) : Bool :=
  match j with
  | .obj fields =>
    match lookupLast fields "content" with
    | none => true
    | some (.arr items) => items.all isObj
    | some _ => false
  | _ => false

theorem any_key_eq_lookupLast {α : Type} (fields : List (String × α)) (k : String) :
    (fields.any (fun kv => kv.1 = k)) = (lookupLast fields k).isSome := by
  induction fields with
  | nil => rfl
  | cons kv rest ih =>
    obtain ⟨k1, v⟩ := kv
    simp only [List.any_cons, ih, lookupLast]
    cases h : lookupLast rest k with
    | some r => simp
    | none =>
      by_cases hk : k1 = k
      · simp [hk]
      · simp [hk]

theorem pyJoin_all_str (sep : String) (items : List Json)
    (h : items.all isStrJ = true) : ∃ s, pyJoin sep items = .ok s := by
  induction items with
  | nil => exact ⟨"", rfl⟩
  | cons x rest ih =>
    simp only [List.all_cons, Bool.and_eq_true] at h
    obtain ⟨hx, hrest⟩ := h
    cases x with
    | str s =>
      cases rest with
      | nil => exact ⟨s, rfl⟩
      | cons y ys =>
        obtain ⟨r, hr⟩ := ih hrest
        refine ⟨s ++ sep ++ r, ?_⟩
        rw [pyJoin]
        · rw [hr]; rfl
        · simp
    | null => simp [isStrJ] at hx
    | bool b => simp [isStrJ] at hx
    | num q => simp [isStrJ] at hx
    | arr l => simp [isStrJ] at hx
    | obj f => simp [isStrJ] at hx

theorem mapM_text_ok (rs : List Json) (h : rs.all resultOk = true) :
    ∃ l, rs.mapM (fun result => pyDictGet result "text" (Json.str "")) = .ok l ∧
      l.all isStrJ = true := by
  induction rs with
  | nil => exact ⟨[], rfl, rfl⟩
  | cons r rest ih =>
    simp only [List.all_cons, Bool.and_eq_true] at h
    obtain ⟨hr, hrest⟩ := h
    obtain ⟨l, hl, hstr⟩ := ih hrest
    cases r with
    | obj fields =>
      rw [resultOk] at hr
      simp only [List.mapM_cons, hl]
      cases htext : lookupLast fields "text" with
      | none =>
        refine ⟨Json.str "" :: l, ?_, ?_⟩
        · simp [pyDictGet, htext]
        · simp [isStrJ, hstr]
      | some v =>
        rw [htext] at hr
        cases v with
        | str t =>
          refine ⟨Json.str t :: l, ?_, ?_⟩
          · simp [pyDictGet, htext]
          · simp [isStrJ, hstr]
        | null => simp at hr
        | bool b => simp at hr
        | num q => simp at hr
        | arr a => simp at hr
        | obj o => simp at hr
    | null => simp [resultOk] at hr
    | bool b => simp [resultOk] at hr
    | num q => simp [resultOk] at hr
    | str s => simp [resultOk] at hr
    | arr a => simp [resultOk] at hr

theorem collectFromC_ok (c : Json) (h : cOk c = true) :
    ∃ l, collectFromC c = .ok l ∧ l.all isStrJ = true := by
  cases c with
  | obj fields =>
    rw [cOk] at h
    cases hjson : lookupLast fields "json" with
    | none =>
      refine ⟨[], ?_, rfl⟩
      simp [collectFromC, pyIn, any_key_eq_lookupLast, hjson]
    | some v =>
      simp only [hjson] at h
      cases v with
      | obj jf =>
        cases hsr : lookupLast jf "search_results" with
        | none =>
          refine ⟨[], ?_, rfl⟩
          simp [collectFromC, pyIn, pySubscript, any_key_eq_lookupLast, hjson, hsr]
        | some w =>
          simp only [hsr] at h
          cases w with
          | arr rs =>
            obtain ⟨l, hmap, hstr⟩ := mapM_text_ok rs h
            refine ⟨l, ?_, hstr⟩
            have hstep : collectFromC (Json.obj fields) =
                rs.mapM (fun result => pyDictGet result "text" (Json.str "")) := by
              simp [collectFromC, pyIn, pySubscript, pyIter, any_key_eq_lookupLast, hjson, hsr]
            rw [hstep, hmap]
          | null => simp at h
          | bool b => simp at h
          | num q => simp at h
          | str s2 => simp at h
          | obj o => simp at h
      | null => simp at h
      | bool b => simp at h
      | num q => simp at h
      | str s => simp at h
      | arr a => simp at h
  | null => simp [cOk] at h
  | bool b => simp [cOk] at h
  | num q => simp [cOk] at h
  | str s => simp [cOk] at h
  | arr a => simp [cOk] at h

theorem mapM_collectFromC_ok (cs : List Json) (h : cs.all cOk = true) :
    ∃ ls, cs.mapM collectFromC = .ok ls ∧ ls.flatten.all isStrJ = true := by
  induction cs with
  | nil => exact ⟨[], rfl, rfl⟩
  | cons c rest ih =>
    simp only [List.all_cons, Bool.and_eq_true] at h
    obtain ⟨hc, hrest⟩ := h
    obtain ⟨l, hl, hstr⟩ := collectFromC_ok c hc
    obtain ⟨ls, hls, hstrs⟩ := ih hrest
    refine ⟨l :: ls, ?_, ?_⟩
    · simp only [List.mapM_cons, hl, hls, except_bind_ok, except_pure_eq_ok]
    · simp [List.all_append, hstr, hstrs]

theorem collectFromItem_ok (item : Json) (h : itemOk item = true) :
    ∃ l, collectFromItem item = .ok l ∧ l.all isStrJ = true := by
  cases item with
  | obj fields =>
    rw [itemOk] at h
    cases hty : lookupLast fields "type" with
    | none =>
      refine ⟨[], ?_, rfl⟩
      simp [collectFromItem, pyDictGet, hty, jsonIsStr]
    | some tv =>
      simp only [hty] at h
      by_cases htr : jsonIsStr tv "tool_result" = true
      case neg =>
        refine ⟨[], ?_, rfl⟩
        simp [collectFromItem, pyDictGet, hty, htr]
      case pos =>
        have htv : tv = Json.str "tool_result" := by
          cases tv with
          | str s =>
            simp only [jsonIsStr, decide_eq_true_eq] at htr
            rw [htr]
          | null => simp [jsonIsStr] at htr
          | bool b => simp [jsonIsStr] at htr
          | num q => simp [jsonIsStr] at htr
          | arr a => simp [jsonIsStr] at htr
          | obj o => simp [jsonIsStr] at htr
        subst htv
        simp only at h
        cases htrf : lookupLast fields "tool_result" with
        | none =>
          refine ⟨[], ?_, rfl⟩
          simp [collectFromItem, pyDictGet, hty, htrf, jsonIsStr, pyStr, strContains,
            containsSub, lookupLast]
        | some trv =>
          simp only [htrf] at h
          cases trv with
          | obj tf =>
            have hcontent : ∃ l, (pyDictGet (Json.obj tf) "content" (Json.arr [])).bind
                (fun content => (pyIter content).bind
                  (fun cs => (cs.mapM collectFromC).bind
                    (fun collected => pure collected.flatten))) = .ok l ∧
                l.all isStrJ = true := by
              cases hct : lookupLast tf "content" with
              | none =>
                refine ⟨[], ?_, rfl⟩
                simp [pyDictGet, hct, pyIter]
                rfl
              | some cv =>
                simp only [hct] at h
                cases cv with
                | arr cs =>
                  obtain ⟨ls, hmls, hstrs⟩ := mapM_collectFromC_ok cs h
                  refine ⟨ls.flatten, ?_, hstrs⟩
                  simp only [pyDictGet, hct, pyIter, Except.bind]
                  rw [hmls]
                  rfl
                | null => simp at h
                | bool b => simp at h
                | num q => simp at h
                | str s => simp at h
                | obj o => simp at h
            cases hnm : lookupLast tf "name" with
            | none =>
              by_cases hname : strContains (pyStr (Json.str "")) "cortex_search" = true
              · obtain ⟨l, hl, hstr⟩ := hcontent
                refine ⟨l, ?_, hstr⟩
                have hstep : collectFromItem (Json.obj fields) =
                    (pyDictGet (Json.obj tf) "content" (Json.arr [])).bind
                      (fun content => (pyIter content).bind
                        (fun cs => (cs.mapM collectFromC).bind
                          (fun collected => pure collected.flatten))) := by
                  simp [collectFromItem, pyDictGet, hty, htrf, hnm, jsonIsStr, hname]
                  rfl
                rw [hstep, hl]
              · refine ⟨[], ?_, rfl⟩
                simp [collectFromItem, pyDictGet, hty, htrf, hnm, jsonIsStr, hname]
            | some nv =>
              by_cases hname : strContains (pyStr nv) "cortex_search" = true
              · obtain ⟨l, hl, hstr⟩ := hcontent
                refine ⟨l, ?_, hstr⟩
                have hstep : collectFromItem (Json.obj fields) =
                    (pyDictGet (Json.obj tf) "content" (Json.arr [])).bind
                      (fun content => (pyIter content).bind
                        (fun cs => (cs.mapM collectFromC).bind
                          (fun collected => pure collected.flatten))) := by
                  simp [collectFromItem, pyDictGet, hty, htrf, hnm, jsonIsStr, hname]
                  rfl
                rw [hstep, hl]
              · refine ⟨[], ?_, rfl⟩
                simp [collectFromItem, pyDictGet, hty, htrf, hnm, jsonIsStr, hname]
          | null => simp at h
          | bool b => simp at h
          | num q => simp at h
          | str s => simp at h
          | arr a => simp at h
  | null => simp [itemOk] at h
  | bool b => simp [itemOk] at h
  | num q => simp [itemOk] at h
  | str s => simp [itemOk] at h
  | arr a => simp [itemOk] at h

theorem mapM_collectFromItem_ok (items : List Json) (h : items.all itemOk = true) :
    ∃ ls, items.mapM collectFromItem = .ok ls ∧ ls.flatten.all isStrJ = true := by
  induction items with
  | nil => exact ⟨[], rfl, rfl⟩
  | cons item rest ih =>
    simp only [List.all_cons, Bool.and_eq_true] at h
    obtain ⟨hi, hrest⟩ := h
    obtain ⟨l, hl, hstr⟩ := collectFromItem_ok item hi
    obtain ⟨ls, hls, hstrs⟩ := ih hrest
    refine ⟨l :: ls, ?_, ?_⟩
    · simp only [List.mapM_cons, hl, hls, except_bind_ok, except_pure_eq_ok]
    · simp [List.all_append, hstr, hstrs]

theorem collectPhase_ok (j : Json) (h : payloadOk j = true) :
    ∃ l, collectPhase j = .ok l ∧ l.all isStrJ = true := by
  cases j with
  | obj fields =>
    rw [payloadOk] at h
    cases hct : lookupLast fields "content" with
    | none => exact ⟨[], by simp [collectPhase, pyDictGet, hct, pyIter]; rfl, rfl⟩
    | some cv =>
      simp only [hct] at h
      cases cv with
      | arr items =>
        obtain ⟨ls, hls, hstrs⟩ := mapM_collectFromItem_ok items h
        refine ⟨ls.flatten, ?_, hstrs⟩
        have hstep : collectPhase (Json.obj fields) =
            (items.mapM collectFromItem).bind (fun collected => pure collected.flatten) := by
          simp [collectPhase, pyDictGet, hct, pyIter]
          rfl
        rw [hstep, hls]
        rfl
      | null => simp at h
      | bool b => simp at h
      | num q => simp at h
      | str s => simp at h
      | obj o => simp at h
  | null => simp [payloadOk] at h
  | bool b => simp [payloadOk] at h
  | num q => simp [payloadOk] at h
  | str s => simp [payloadOk] at h
  | arr a => simp [payloadOk] at h

theorem extract_case_studies_ok (j : Json) (h : payloadOk j = true) :
    ∃ s, extract_case_studies_from_response j = .ok s := by
  obtain ⟨l, hl, hstr⟩ := collectPhase_ok j h
  rw [extract_case_studies_from_response, hl]
  cases l with
  | nil => exact ⟨no_case_studies_sentinel, rfl⟩
  | cons x rest =>
    obtain ⟨s, hs⟩ := pyJoin_all_str "\n\n---\n\n" (x :: rest) hstr
    refine ⟨s, ?_⟩
    simp only [except_bind_ok]
    simp [List.isEmpty, hs]

theorem scanForText_ok (items : List Json) (h : items.all isObj = true) :
    ∃ r, scanForText items = .ok r := by
  induction items with
  | nil => exact ⟨Json.str "No agent response found", rfl⟩
  | cons item rest ih =>
    simp only [List.all_cons, Bool.and_eq_true] at h
    obtain ⟨hi, hrest⟩ := h
    cases item with
    | obj fields =>
      obtain ⟨r, hr⟩ := ih hrest
      rw [scanForText]
      cases hl : lookupLast fields "type" with
      | none =>
        refine ⟨r, ?_⟩
        simp [pyDictGet, hl, jsonIsStr, hr]
      | some tv =>
        by_cases hty : jsonIsStr tv "text" = true
        · refine ⟨(match lookupLast fields "text" with
            | some v => v
            | none => Json.str ""), ?_⟩
          simp only [pyDictGet, hl, except_bind_ok, hty, if_true]
          cases lookupLast fields "text" <;> rfl
        · refine ⟨r, ?_⟩
          simp [pyDictGet, hl, hty, hr]
    | null => simp [isObj] at hi
    | bool b => simp [isObj] at hi
    | num q => simp [isObj] at hi
    | str s => simp [isObj] at hi
    | arr a => simp [isObj] at hi

theorem extract_agent_response_ok (j : Json) (h : agentRespOk j = true) :
    ∃ r, extract_agent_response j = .ok r := by
  cases j with
  | obj fields =>
    rw [agentRespOk] at h
    cases hct : lookupLast fields "content" with
    | none =>
      refine ⟨Json.str "No agent response found", ?_⟩
      simp [extract_agent_response, pyDictGet, hct, pyReversed]
      rfl
    | some cv =>
      simp only [hct] at h
      cases cv with
      | arr items =>
        have hrev : items.reverse.all isObj = true := by
          simpa [List.all_reverse] using h
        obtain ⟨r, hr⟩ := scanForText_ok items.reverse hrev
        refine ⟨r, ?_⟩
        have hstep : extract_agent_response (Json.obj fields) = scanForText items.reverse := by
          simp [extract_agent_response, pyDictGet, hct, pyReversed]
        rw [hstep, hr]
      | null => simp at h
      | bool b => simp at h
      | num q => simp at h
      | str s => simp at h
      | obj o => simp at h
  | null => simp [agentRespOk] at h
  | bool b => simp [agentRespOk] at h
  | num q => simp [agentRespOk] at h
  | str s => simp [agentRespOk] at h
  | arr a => simp [agentRespOk] at h

/-- A payload whose single content block carries the malformed optional
sub-field `"tool_result": null`. -/
def c2_null_tool_result_payload : Json :=
  Json.obj [("content", Json.arr
    [Json.obj [("type", Json.str "tool_result"), ("tool_result", Json.null)]])]

/-- C2 counterexample: on a payload whose content block has the malformed
optional sub-field `tool_result = null`, `extract_case_studies_from_response`
raises (Python: `None.get(...)` is an `AttributeError`) instead of returning
its sentinel, so the claim's "never raise for ... malformed optional
sub-fields" fails. -/
theorem c2_counterexample_null_tool_result :
    extract_case_studies_from_response c2_null_tool_result_payload =
      .error .attributeError ∧
    extract_case_studies_from_response c2_null_tool_result_payload ≠
      .ok no_case_studies_sentinel := by
  refine ⟨rfl, ?_⟩
  intro h
  rw [show extract_case_studies_from_response c2_null_tool_result_payload =
    .error .attributeError from rfl] at h
  cases h

/-- C2 amended: `extract_agent_response` never raises on any object payload
whose `content` is missing or a list of objects, and
`extract_case_studies_from_response` never raises provided additionally that
the optional sub-fields, where present, carry their expected container types
(`tool_result` an object, its `content` a list of objects, `json` an object,
`search_results` a list of objects, `text` a string); on a missing or empty
content list both return their sentinels (the evidence sentinel, and the
`"No agent response found"` sentinel). -/
theorem c2_extraction_robustness_amended (j1 j2 : Json)
    (h1 : payloadOk j1 = true) (h2 : agentRespOk j2 = true) :
    (∃ s, extract_case_studies_from_response j1 = .ok s) ∧
    (∃ r, extract_agent_response j2 = .ok r) ∧
    extract_case_studies_from_response (Json.obj []) = .ok no_case_studies_sentinel ∧
    extract_agent_response (Json.obj []) = .ok (Json.str "No agent response found") ∧
    extract_case_studies_from_response (Json.obj [("content", Json.arr [])]) =
      .ok no_case_studies_sentinel ∧
    extract_agent_response (Json.obj [("content", Json.arr [])]) =
      .ok (Json.str "No agent response found") :=
  ⟨extract_case_studies_ok j1 h1, extract_agent_response_ok j2 h2, rfl, rfl, rfl, rfl⟩

/-- Witness for `c2_extraction_robustness_amended` at a well-typed evidence
payload and a well-typed text payload. -/
theorem c2_extraction_robustness_amended_witness :
    payloadOk (mkEvidenceResponse [["case study A"]]) = true ∧
    agentRespOk (mkContentResponse ["final answer"]) = true ∧
    ((∃ s, extract_case_studies_from_response (mkEvidenceResponse [["case study A"]]) = .ok s) ∧
      (∃ r, extract_agent_response (mkContentResponse ["final answer"]) = .ok r) ∧
      extract_case_studies_from_response (Json.obj []) = .ok no_case_studies_sentinel ∧
      extract_agent_response (Json.obj []) = .ok (Json.str "No agent response found") ∧
      extract_case_studies_from_response (Json.obj [("content", Json.arr [])]) =
        .ok no_case_studies_sentinel ∧
      extract_agent_response (Json.obj [("content", Json.arr [])]) =
        .ok (Json.str "No agent response found")) :=
  ⟨rfl, rfl,
    c2_extraction_robustness_amended (mkEvidenceResponse [["case study A"]])
      (mkContentResponse ["final answer"]) rfl rfl⟩

/-! ## Judgment recovery inputs and theorems (C3) -/

/-- Judge output wrapped in a fenced block tagged `json`. -/
def c3_fenced_output : String :=
  "```json\n\x7b\"overall_score\": 4.6\x7d\n```"

/-- Judge output that is bare valid structured data, no fences. -/
def c3_bare_output : String :=
  "\x7b\"overall_score\": 4.6\x7d"

/-- Judge output that is valid structured data as a whole but contains the
substring `"```json"` inside a string value with no closing fence after it. -/
def c3_unclosed_fence_output : String :=
  "\x7b\"note\": \"```json\", \"overall_score\": 3\x7d"

/-- Whether a recovery result is a successfully parsed judgment. -/
def isParsed : JudgeResult → Bool
  | .parsed _ => true
  | .failed _ => false

/-- C3 counterexample: on `c3_unclosed_fence_output`, the recovery block
returns the parse-failure dict even though the raw text parses as well-formed
structured data — the code never falls back to strategy (c) once the
`"```json"` marker is present, contradicting the claimed try-in-order
cascade, whose modelled result (`specRecoverJudgment`) succeeds here. -/
theorem c3_counterexample_no_fallback :
    recoverJudgment c3_unclosed_fence_output = .failed c3_unclosed_fence_output ∧
    (pyJsonLoads (pyStrip c3_unclosed_fence_output)).isSome = true ∧
    recoverJudgment c3_unclosed_fence_output ≠ specRecoverJudgment c3_unclosed_fence_output := by
  refine ⟨rfl, rfl, ?_⟩
  intro h
  have hdisc : isParsed (recoverJudgment c3_unclosed_fence_output) =
      isParsed (specRecoverJudgment c3_unclosed_fence_output) := congrArg isParsed h
  rw [show isParsed (recoverJudgment c3_unclosed_fence_output) = false from rfl,
      show isParsed (specRecoverJudgment c3_unclosed_fence_output) = true from rfl] at hdisc
  cases hdisc

/-- C3 amended: recovery never raises, but it is a single-strategy selection,
not a cascade: the strategy is chosen by marker presence (a `"```json"`
tagged fence, else any `"```"` fence, else the raw text) and its one parse
attempt decides the outcome.  A tagged-fenced payload with valid interior and
a bare valid payload both recover a judgment with `overall_score` present;
garbage recovers the parse-failure value carrying the attempted text; and
when the chosen strategy fails — here an unclosed tagged fence — the failure
value is returned even though a later strategy would have parsed. -/
theorem c3_amended_single_strategy :
    (∃ jv, recoverJudgment c3_fenced_output = .parsed jv ∧
      (getField jv "overall_score").isSome = true) ∧
    (∃ jv, recoverJudgment c3_bare_output = .parsed jv ∧
      (getField jv "overall_score").isSome = true) ∧
    recoverJudgment "garbage text" = .failed "garbage text" ∧
    (recoverJudgment c3_unclosed_fence_output = .failed c3_unclosed_fence_output ∧
      (pyJsonLoads (pyStrip c3_unclosed_fence_output)).isSome = true) :=
  ⟨⟨_, rfl, rfl⟩, ⟨_, rfl, rfl⟩, rfl, rfl, rfl⟩

/-! ## Continuation chaining and the end-to-end report run (C1, C7) -/

/-- An agent-API response with a `message_id` and a single text block. -/
def mkTextResp (mid t : String) : Json :=
  Json.obj [("message_id", Json.str mid),
            ("message", Json.obj [("content", Json.arr [mkTextBlock t])])]

/-- A mock network: thread creation succeeds and the three turn replies carry
distinct message ids and distinct texts. -/
def mockEnv3 : AgentEnv :=
  { create_thread := .ok "thread-1",
    call_agent := fun i =>
      if i = 0 then .ok (mkTextResp "msg-1" "performance analysis text")
      else if i = 1 then .ok (mkTextResp "msg-2" "business value text")
      else .ok (mkTextResp "msg-3" "recommendations text") }

/-- C1: over the fixed three-section run, whenever thread creation succeeds
and every turn reply is an object with a `message_id` and an extractable
body, the recorded trace shows that turn 1 was sent the sentinel
continuation id `"0"` and that each later turn was sent exactly the
`message_id` of the previous turn's response. -/
theorem c1_continuation_chaining (env : AgentEnv) (customer_id week_start week_end : String)
    (hthread : ∃ tid, env.create_thread = .ok tid)
    (hok : ∀ k, k < 3 → ∃ fs t m, env.call_agent k = .ok (Json.obj fs) ∧
      extract_text_from_response (Json.obj fs) = .ok t ∧
      lookupLast fs "message_id" = some m) :
    ∃ secs recs, generate_report_for_customer env customer_id week_start week_end =
        .ok (secs, recs) ∧
      recs.length = 3 ∧
      recs.head?.map TurnRecord.sent_parent = some (Json.str "0") ∧
      ∀ k, (hk1 : k + 1 < recs.length) → (hk : k < recs.length) →
        getField ((recs.get ⟨k, hk⟩).response) "message_id" =
          some ((recs.get ⟨k + 1, hk1⟩).sent_parent) := by
  obtain ⟨tid, htid⟩ := hthread
  obtain ⟨fs0, t0, m0, ha0, he0, hm0⟩ := hok 0 (by omega)
  obtain ⟨fs1, t1, m1, ha1, he1, hm1⟩ := hok 1 (by omega)
  obtain ⟨fs2, t2, m2, ha2, he2, hm2⟩ := hok 2 (by omega)
  have hget0 : pyDictGet (Json.obj fs0) "message_id" (Json.str "0") = .ok m0 := by
    simp [pyDictGet, hm0]
  have hget1 : pyDictGet (Json.obj fs1) "message_id" m0 = .ok m1 := by
    simp [pyDictGet, hm1]
  have hget2 : pyDictGet (Json.obj fs2) "message_id" m1 = .ok m2 := by
    simp [pyDictGet, hm2]
  refine ⟨[("performance", t0), ("business_value", t1), ("recommendations", t2)],
    [⟨Json.str "0", Json.obj fs0⟩, ⟨m0, Json.obj fs1⟩, ⟨m1, Json.obj fs2⟩], ?_, rfl, rfl, ?_⟩
  · simp only [generate_report_for_customer, report_section_specs, htid, except_bind_ok]
    simp only [genSectionsLoop, ha0, he0, hget0, ha1, he1, hget1, ha2, he2, hget2,
      except_bind_ok, except_pure_eq_ok]
  · intro k hk1 hk
    match k with
    | 0 => exact hm0
    | 1 => exact hm1
    | k + 2 =>
      have hlt : k + 2 + 1 < 3 := by simpa using hk1
      exact absurd hlt (by omega)

/-- Witness for `c1_continuation_chaining` at the concrete mock network. -/
theorem c1_continuation_chaining_witness :
    (∃ tid, mockEnv3.create_thread = .ok tid) ∧
    (∀ k, k < 3 → ∃ fs t m, mockEnv3.call_agent k = .ok (Json.obj fs) ∧
      extract_text_from_response (Json.obj fs) = .ok t ∧
      lookupLast fs "message_id" = some m) ∧
    (∃ secs recs, generate_report_for_customer mockEnv3 "CUST1" "2025-01-01" "2025-01-08" =
        .ok (secs, recs) ∧
      recs.length = 3 ∧
      recs.head?.map TurnRecord.sent_parent = some (Json.str "0") ∧
      ∀ k, (hk1 : k + 1 < recs.length) → (hk : k < recs.length) →
        getField ((recs.get ⟨k, hk⟩).response) "message_id" =
          some ((recs.get ⟨k + 1, hk1⟩).sent_parent)) := by
  have hthread : ∃ tid, mockEnv3.create_thread = .ok tid := ⟨"thread-1", rfl⟩
  have hok : ∀ k, k < 3 → ∃ fs t m, mockEnv3.call_agent k = .ok (Json.obj fs) ∧
      extract_text_from_response (Json.obj fs) = .ok t ∧
      lookupLast fs "message_id" = some m := by
    intro k hk
    match k with
    | 0 => exact ⟨_, _, _, rfl, rfl, rfl⟩
    | 1 => exact ⟨_, _, _, rfl, rfl, rfl⟩
    | 2 => exact ⟨_, _, _, rfl, rfl, rfl⟩
    | k + 3 => exact absurd hk (by omega)
  exact ⟨hthread, hok,
    c1_continuation_chaining mockEnv3 "CUST1" "2025-01-01" "2025-01-08" hthread hok⟩

/-- Leading segment of the expected formatted report, up to the point where
the performance section body is spliced in. -/
def c7_report_head : String :=
  "\n" ++ eqLine80 ++ "\nWEEKLY EXECUTIVE REVIEW REPORT\n" ++ eqLine80 ++
  "\n\nCustomer ID: CUST1\nCSM: Alice Smith\nReport Period: January 01, 2025 - January 08, 2025" ++
  "\nGenerated: October 10, 2025 at 09:00 AM\n\n" ++ eqLine80 ++
  "\n1. PERFORMANCE VS BENCHMARKS\n" ++ eqLine80 ++ "\n\n"

/-- Segment between the performance body and the business-value body. -/
def c7_mid_business : String :=
  "\n\n" ++ eqLine80 ++ "\n2. BUSINESS VALUE ANALYSIS\n" ++ eqLine80 ++ "\n\n"

/-- Segment between the business-value body and the recommendations body. -/
def c7_mid_recommendations : String :=
  "\n\n" ++ eqLine80 ++ "\n3. RECOMMENDATIONS & BEST PRACTICES\n" ++ eqLine80 ++ "\n\n"

/-- Trailing segment of the expected formatted report. -/
def c7_report_tail : String :=
  "\n\n" ++ eqLine80 ++ "\nEND OF REPORT\n" ++ eqLine80 ++ "\n"

set_option maxRecDepth 4000 in
/-- C7 (E2E scenario A): with mocked turns returning distinct text per call,
the run over the three SectionSpecs yields exactly the three keys
`performance`, `business_value`, `recommendations` bound to the per-turn
extracted texts in that order, and the full formatted report is the template
segments with each section heading and its body spliced in that order. -/
theorem c7_e2e_three_sections :
    (generate_report_for_customer mockEnv3 "CUST1" "2025-01-01" "2025-01-08").map Prod.fst =
      .ok [("performance", "performance analysis text"),
           ("business_value", "business value text"),
           ("recommendations", "recommendations text")] ∧
    ((generate_report_for_customer mockEnv3 "CUST1" "2025-01-01" "2025-01-08").bind
        (fun p => format_full_report "CUST1" "Alice Smith" "January 01, 2025"
          "January 08, 2025" "October 10, 2025 at 09:00 AM" p.1)) =
      .ok (c7_report_head ++ "performance analysis text" ++
           c7_mid_business ++ "business value text" ++
           c7_mid_recommendations ++ "recommendations text" ++
           c7_report_tail) :=
  ⟨rfl, rfl⟩

/-! ## Batch isolation (C4) -/

/-- Whether an embedded computation succeeded. -/
def isOkB {ε α : Type} : Except ε α → Bool
  | .ok _ => true
  | .error _ => false

@[simp] theorem isOkB_ok {ε α : Type} (a : α) : isOkB (Except.ok a : Except ε α) = true := rfl

@[simp] theorem isOkB_err {ε α : Type} (e : ε) :
    isOkB (Except.error e : Except ε α) = false := rfl

/-- All (CSM, customer) pairs of a batch, in iteration order. -/
def pairsOf (csms : List Csm) : List (Csm × String) :=
  (csms.map (fun m => m.customer_ids.map (fun c => (m, c)))).flatten

theorem processCustomers_spec (runOne : String → Except PyErr Unit) (owner : String)
    (cs : List String) (hvalid : ∀ c ∈ cs, c ≠ "" ∧ c ≠ "undefined") :
    (processCustomers runOne owner cs).1 = cs.countP (fun c => isOkB (runOne c)) ∧
    (processCustomers runOne owner cs).2.map (fun f => (f.subject_id, f.owner_id)) =
      (cs.filter (fun c => ! isOkB (runOne c))).map (fun c => (c, owner)) := by
  induction cs with
  | nil => exact ⟨rfl, rfl⟩
  | cons c rest ih =>
    have hc := hvalid c (List.mem_cons_self c rest)
    have hrest : ∀ x ∈ rest, x ≠ "" ∧ x ≠ "undefined" :=
      fun x hx => hvalid x (List.mem_cons_of_mem c hx)
    obtain ⟨ih1, ih2⟩ := ih hrest
    rw [processCustomers, if_pos hc]
    cases hro : runOne c with
    | ok u =>
      cases u
      constructor
      · simp only [List.countP_cons, hro, isOkB_ok]
        simp [ih1]
      · simp only [List.filter_cons, hro, isOkB_ok]
        simp [ih2]
    | error e =>
      constructor
      · simp only [List.countP_cons, hro, isOkB_err]
        simp [ih1]
      · simp only [List.filter_cons, hro, isOkB_err]
        simp [ih2]

theorem generate_weekly_reports_spec (envFor : String → AgentEnv) (ctx : RunCtx)
    (csms : List Csm)
    (hvalid : ∀ m ∈ csms, ∀ c ∈ m.customer_ids, c ≠ "" ∧ c ≠ "undefined") :
    (generate_weekly_reports envFor ctx csms).1 =
      (pairsOf csms).countP (fun p => isOkB (run_customer_report envFor ctx p.1 p.2)) ∧
    (generate_weekly_reports envFor ctx csms).2.map (fun f => (f.subject_id, f.owner_id)) =
      ((pairsOf csms).filter
          (fun p => ! isOkB (run_customer_report envFor ctx p.1 p.2))).map
        (fun p => (p.2, p.1.csm_id)) := by
  induction csms with
  | nil => exact ⟨rfl, rfl⟩
  | cons m rest ih =>
    have hm : ∀ c ∈ m.customer_ids, c ≠ "" ∧ c ≠ "undefined" :=
      fun c hc => hvalid m (List.mem_cons_self m rest) c hc
    have hrest : ∀ x ∈ rest, ∀ c ∈ x.customer_ids, c ≠ "" ∧ c ≠ "undefined" :=
      fun x hx => hvalid x (List.mem_cons_of_mem m hx)
    obtain ⟨ih1, ih2⟩ := ih hrest
    obtain ⟨hp1, hp2⟩ :=
      processCustomers_spec (run_customer_report envFor ctx m) m.csm_id m.customer_ids hm
    have hpairs : pairsOf (m :: rest) =
        m.customer_ids.map (fun c => (m, c)) ++ pairsOf rest := by
      simp [pairsOf]
    constructor
    · rw [generate_weekly_reports]
      simp only [hp1, ih1, hpairs, List.countP_append]
      rw [List.countP_map]
      rfl
    · rw [generate_weekly_reports]
      simp only [List.map_append, hp2, ih2, hpairs, List.filter_append]
      rw [List.filter_map, List.map_map]
      rfl

theorem countP_add_countP_not_len {α : Type} (p : α → Bool) (l : List α) :
    l.countP p + l.countP (fun a => ! p a) = l.length := by
  induction l with
  | nil => rfl
  | cons x rest ih =>
    simp only [List.countP_cons, List.length_cons]
    cases hx : p x <;> simp <;> omega

/-- C4: when every customer id in the batch is attemptable and exactly one
(CSM, customer) pair fails, the batch still runs to completion, the success
count is the number of pairs minus one, exactly one failure is recorded, and
its `subject_id` is the failing customer — no other pair is affected. -/
theorem c4_batch_isolation (envFor : String → AgentEnv) (ctx : RunCtx) (csms : List Csm)
    (mStar : Csm) (cStar : String)
    (hvalid : ∀ m ∈ csms, ∀ c ∈ m.customer_ids, c ≠ "" ∧ c ≠ "undefined")
    (hone : (pairsOf csms).filter
        (fun p => ! isOkB (run_customer_report envFor ctx p.1 p.2)) = [(mStar, cStar)]) :
    (generate_weekly_reports envFor ctx csms).1 = (pairsOf csms).length - 1 ∧
    (generate_weekly_reports envFor ctx csms).2.length = 1 ∧
    (generate_weekly_reports envFor ctx csms).2.map SubjectFailure.subject_id = [cStar] := by
  obtain ⟨h1, h2⟩ := generate_weekly_reports_spec envFor ctx csms hvalid
  have hnot : (pairsOf csms).countP
      (fun p => ! isOkB (run_customer_report envFor ctx p.1 p.2)) = 1 := by
    rw [List.countP_eq_length_filter, hone]
    rfl
  have hsum := countP_add_countP_not_len
    (fun p => isOkB (run_customer_report envFor ctx p.1 p.2)) (pairsOf csms)
  refine ⟨?_, ?_, ?_⟩
  · rw [h1]
    omega
  · have hlen := congrArg List.length h2
    rw [hone] at hlen
    simpa using hlen
  · have h3 := congrArg (List.map Prod.fst) h2
    rw [hone] at h3
    simp only [List.map_map] at h3
    have hfst : (Prod.fst ∘ fun f : SubjectFailure => (f.subject_id, f.owner_id)) =
        SubjectFailure.subject_id := rfl
    rw [hfst] at h3
    simpa using h3

/-- A network whose turn calls always fail with a transport error. -/
def failEnv : AgentEnv :=
  { create_thread := .ok "thread-f",
    call_agent := fun _ => .error (.transport "connection failed") }

/-- A per-customer network where only customer `CU2`'s turns fail. -/
def c4_envFor : String → AgentEnv :=
  fun c => if c = "CU2" then failEnv else mockEnv3

/-- Concrete run context for the batch witness. -/
def c4_ctx : RunCtx :=
  ⟨"October 10, 2025 at 09:00 AM", "January 01, 2025", "January 08, 2025",
   "2025-01-01", "2025-01-08"⟩

/-- A one-CSM batch of three customers. -/
def c4_csms : List Csm :=
  [⟨"CSM1", "Alice Smith", ["CU1", "CU2", "CU3"]⟩]

set_option maxRecDepth 8000 in
/-- Witness for `c4_batch_isolation`: in a batch of three customers where
only `CU2`'s turn call fails, two reports succeed and the single recorded
failure names `CU2`. -/
theorem c4_batch_isolation_witness :
    (∀ m ∈ c4_csms, ∀ c ∈ m.customer_ids, c ≠ "" ∧ c ≠ "undefined") ∧
    (pairsOf c4_csms).filter
        (fun p => ! isOkB (run_customer_report c4_envFor c4_ctx p.1 p.2)) =
      [(⟨"CSM1", "Alice Smith", ["CU1", "CU2", "CU3"]⟩, "CU2")] ∧
    ((generate_weekly_reports c4_envFor c4_ctx c4_csms).1 = (pairsOf c4_csms).length - 1 ∧
      (generate_weekly_reports c4_envFor c4_ctx c4_csms).2.length = 1 ∧
      (generate_weekly_reports c4_envFor c4_ctx c4_csms).2.map SubjectFailure.subject_id =
        ["CU2"]) := by
  have hv : ∀ m ∈ c4_csms, ∀ c ∈ m.customer_ids, c ≠ "" ∧ c ≠ "undefined" := by decide
  have ho : (pairsOf c4_csms).filter
      (fun p => ! isOkB (run_customer_report c4_envFor c4_ctx p.1 p.2)) =
    [(⟨"CSM1", "Alice Smith", ["CU1", "CU2", "CU3"]⟩, "CU2")] := rfl
  exact ⟨hv, ho,
    c4_batch_isolation c4_envFor c4_ctx c4_csms
      ⟨"CSM1", "Alice Smith", ["CU1", "CU2", "CU3"]⟩ "CU2" hv ho⟩
